import Mathlib

/-!
Verification of the resilient streaming-connection client of the Snuxtify
trading dashboard: a shallow embedding of the connection hooks
(frontend/hooks/useWebSocket.ts and the enhanced hook, called part_004 below)
together with proofs about the state reducer, the message router, the
batching buffer, the backoff policy, the connection manager and the
subscription tracker.

JavaScript values carried in message payloads are embedded as a `Json`
inductive; JavaScript numbers that can be NaN (latency, parsed timestamps)
are embedded as `JsNum`.  Code that can throw (the JavaScript `in` operator
applied to a primitive) returns `Except String`.
-/

namespace Snuxtify

/-- A JSON-like JavaScript value as delivered by JSON.parse: null, booleans,
numbers, strings, arrays and objects (ordered key/value lists; objects
produced by JSON.parse have unique keys). `Option Json` is used where a value
may also be `undefined` (an absent property). -/
inductive Json where
  | null
  | bool (b : Bool)
  | num (v : ℚ)
  | str (s : String)
  | arr (elems : List Json)
  | obj (fields : List (String × Json))

/-- A JavaScript number that may be NaN (the result of a failed parse, or of
arithmetic with NaN).  Finite values are embedded as rationals; all the
times and latencies the client computes are integral millisecond counts. -/
inductive JsNum where
  | val (v : ℚ)
  | nan
deriving DecidableEq

/-- Property read on an object: the value of the first field named `k`
(objects coming from JSON.parse have unique keys). -/
def jsGet (fields : List (String × Json)) (k : String) : Option Json :=
  (fields.find? (fun p => p.1 = k)).map (fun p => p.2)

/-- JavaScript truthiness of a defined value. (`Json.num` carries a rational
and can never be NaN, since JSON has no NaN literal.) -/
def jsTruthy : Json → Bool
  | .null => false
  | .bool b => b
  | .num v => v != 0
  | .str s => s != ""
  | .arr _ => true
  | .obj _ => true

/-- JavaScript truthiness of a possibly-undefined value. -/
def jsTruthyOpt : Option Json → Bool
  | none => false
  | some j => jsTruthy j

/-- The JavaScript expression `a || b` for a possibly-undefined `a`
and a defined default `b`. -/
def jsOrOpt (a : Option Json) (b : Json) : Json :=
  match a with
  | some j => if jsTruthy j then j else b
  | none => b

mutual

/-- JavaScript String(x) coercion, used when a value is spread into a
computed object key.  Non-integral numbers are stringified by their
rational representation (the client only ever coerces string symbols). -/
def jsToDisplay : Json → String
  | .null => "null"
  | .bool b => cond b "true" "false"
  | .num v => if v.den = 1 then toString v.num else toString v
  | .str s => s
  | .arr xs => jsJoinElems xs
  | .obj _ => "[object Object]"

/-- Array.prototype.toString: elements joined with commas. -/
def jsJoinElems : List Json → String
  | [] => ""
  | [x] => jsElemDisplay x
  | x :: y :: rest => jsElemDisplay x ++ "," ++ jsJoinElems (y :: rest)

/-- Inside Array.prototype.join, null and undefined elements render empty. -/
def jsElemDisplay : Json → String
  | .null => ""
  | .bool b => jsToDisplay (.bool b)
  | .num v => jsToDisplay (.num v)
  | .str s => s
  | .arr xs => jsJoinElems xs
  | .obj fs => jsToDisplay (.obj fs)

end

/-- The string coercion applied by the computed object key
`[marketUpdate.symbol]` in the market-data branch of the reducer. -/
def jsKey : Json → String
  | .str s => s
  | .null => "null"
  | .bool b => cond b "true" "false"
  | .num v => if v.den = 1 then toString v.num else toString v
  | .arr xs => jsJoinElems xs
  | .obj _ => "[object Object]"

/-- Value of a run of decimal digits. -/
def digitsVal (ds : List Char) : ℤ :=
  ds.foldl (fun acc c => acc * 10 + (Int.ofNat (c.toNat - '0'.toNat))) 0

/-- JavaScript parseInt on a string: trim, optional sign, longest run of
leading decimal digits; NaN when no digit is found.  (The client only parses
epoch-millisecond timestamps, which are plain decimal integers.) -/
def jsParseInt (s : String) : JsNum :=
  let t := s.trim
  let signed : ℤ × List Char :=
    match t.data with
    | '-' :: r => (-1, r)
    | '+' :: r => (1, r)
    | r => (1, r)
  let ds := signed.2.takeWhile (fun c => c.isDigit)
  if ds.isEmpty then .nan else .val ((signed.1 * digitsVal ds : ℤ) : ℚ)

/-- JavaScript ToNumber of a string: empty/whitespace is 0, a decimal
integer literal is its value, anything else NaN (the client only converts
integral timestamps). -/
def jsNumberOfString (s : String) : JsNum :=
  let t := s.trim
  if t = "" then .val 0
  else
    match t.toInt? with
    | some n => .val (n : ℚ)
    | none => .nan

/-- JavaScript ToNumber coercion applied by subtraction on a non-string
operand. -/
def jsToNumber : Json → JsNum
  | .null => .val 0
  | .bool b => .val (cond b 1 0)
  | .num v => .val v
  | .str s => jsNumberOfString s
  | .arr xs => jsNumberOfString (jsJoinElems xs)
  | .obj _ => .nan

/-- Subtraction on JavaScript numbers; NaN is absorbing. -/
def jsSub : JsNum → JsNum → JsNum
  | .val a, .val b => .val (a - b)
  | _, _ => .nan

/-- The JavaScript `in` operator.  On an object it tests key presence, on an
array it tests "length" or an index; on a primitive (including null) it
throws a TypeError, which this embedding returns as an error. -/
def jsIn (key : String) : Json → Except String Bool
  | .obj fields => .ok (jsGet fields key).isSome
  | .arr elems =>
      .ok (key == "length" ||
        (match key.toNat? with
         | some i => decide (i < elems.length)
         | none => false))
  | _ => .error ("TypeError: Cannot use in operator to search for " ++ key)

/-- Optional-chained property access `x?.k` followed by a plain property
read: undefined and null give undefined; objects look the key up; arrays
and strings expose only "length" and indices; other primitives have no own
properties. -/
def jsDotGet (x : Option Json) (k : String) : Option Json :=
  match x with
  | none => none
  | some .null => none
  | some (.obj fields) => jsGet fields k
  | some (.arr elems) =>
      if k = "length" then some (.num elems.length)
      else match k.toNat? with
        | some i => elems.get? i
        | none => none
  | some (.str s) =>
      if k = "length" then some (.num s.length) else none
  | some _ => none

/-- Object spread with one computed key, `\x7b...m, [k]: v\x7d`: the value of an
existing key `k` is replaced in place, a new key is appended at the end —
JavaScript own-property insertion order. -/
def objSet : List (String × Json) → String → Json → List (String × Json)
  | [], k, v => [(k, v)]
  | (k', v') :: rest, k, v =>
      if k' = k then (k', v) :: rest else (k', v') :: objSet rest k v

/-- The JavaScript expression `r || d` on an optional string with a string
default (used for close reasons). -/
def strOrDefault (r : Option String) (d : String) : String :=
  match r with
  | some s => if s = "" then d else s
  | none => d

/-- An inbound WebSocket message as consumed by the reducer: the parsed
`type` tag and the (possibly absent) `data` payload
(frontend/types/mt5.ts, WebSocketMessage). -/
structure WSMessage where
  type : String
  data : Option Json

/-- The reducer state of the enhanced hook (part_004, WebSocketState).
`positions` and `orders` hold whatever the payload supplied (the TypeScript
any[] annotation is not enforced at runtime), `marketData` is an object
mapping symbol to quote, `error` holds whatever value the code assigns. -/
structure WebSocketState where
  accountData : Option Json
  marketData : Option (List (String × Json))
  positions : Option Json
  orders : Option Json
  isConnected : Bool
  error : Option Json
  connectionAttempts : ℕ
  lastMessageTime : Option ℚ
  subscribedChannels : List String
  latency : JsNum
  messageBuffer : List WSMessage

/-- The action type of the enhanced hook (part_004, WebSocketAction). -/
inductive WSAction where
  | connected
  | disconnected (reason : Option String)
  | reconnecting
  | message (payload : WSMessage)
  | subscribe (channel : String)
  | unsubscribe (channel : String)
  | updateLatency (latency : JsNum)
  | batchUpdate (messages : List WSMessage)

/-- part_004, initialState. -/
def initialState : WebSocketState :=
  { accountData := none
    marketData := none
    positions := none
    orders := none
    isConnected := false
    error := none
    connectionAttempts := 0
    lastMessageTime := none
    subscribedChannels := []
    latency := .val 0
    messageBuffer := [] }

/-- JavaScript `new Set([...old, c])`: insertion order kept, duplicates
collapse onto the first occurrence. -/
def setAdd (l : List String) (c : String) : List String :=
  if c ∈ l then l else l ++ [c]

/-- The common prefix of every processMessage branch: the JavaScript
`let newState = \x7b ...state, lastMessageTime: new Date() \x7d`. -/
def touch (state : WebSocketState) (now : ℚ) : WebSocketState :=
  { state with lastMessageTime := some now }

/-- part_004, processMessage: folds one inbound message into the state.
Every branch starts from `touch state now`, the state with lastMessageTime
set to the current time.  The position/order branches apply the JavaScript
`in` operator to a payload guarded only by truthiness, so a truthy primitive
payload makes the reducer throw, modelled by the `Except` error. -/
def processMessage (state : WebSocketState) (msg : WSMessage) (now : ℚ) :
    Except String WebSocketState :=
  if msg.type = "account_update" then
    .ok { touch state now with accountData := msg.data }
  else if msg.type = "market_data" then
    match msg.data with
    | some (Json.obj fields) =>
        match jsGet fields "symbol" with
        | some symVal =>
            .ok { touch state now with
              marketData := some (objSet ((touch state now).marketData.getD [])
                (jsKey symVal) (jsOrOpt (jsGet fields "data") (Json.obj fields))) }
        | none => .ok (touch state now)
    | _ => .ok (touch state now)
  else if msg.type = "position_update" then
    match msg.data with
    | some (Json.arr xs) =>
        .ok { touch state now with positions := some (Json.arr xs) }
    | some j =>
        if jsTruthy j then
          match jsIn "positions" j with
          | .error e => .error e
          | .ok true =>
              .ok { touch state now with
                positions := jsDotGet (some j) "positions" }
          | .ok false => .ok (touch state now)
        else .ok (touch state now)
    | none => .ok (touch state now)
  else if msg.type = "order_update" then
    match msg.data with
    | some (Json.arr xs) =>
        .ok { touch state now with orders := some (Json.arr xs) }
    | some j =>
        if jsTruthy j then
          match jsIn "orders" j with
          | .error e => .error e
          | .ok true =>
              .ok { touch state now with orders := jsDotGet (some j) "orders" }
          | .ok false => .ok (touch state now)
        else .ok (touch state now)
    | none => .ok (touch state now)
  else if msg.type = "connection_status" ∨ msg.type = "connection_connected" then
    .ok { touch state now with
      error :=
        if jsTruthyOpt (jsDotGet msg.data "connected") then none
        else some (jsOrOpt (jsDotGet msg.data "message")
          (Json.str "Connection status unknown")) }
  else if msg.type = "connection_disconnected" then
    .ok { touch state now with error := some (Json.str "MT5 connection lost") }
  else if msg.type = "error" then
    match msg.data with
    | some (Json.str s) =>
        .ok { touch state now with error := some (Json.str s) }
    | some (Json.obj fields) =>
        match jsGet fields "message" with
        | some v =>
            .ok { touch state now with
              error := some (if jsTruthy v then v
                else Json.str "Unknown server error") }
        | none =>
            .ok { touch state now with
              error := some (Json.str "Unknown server error") }
    | _ =>
        .ok { touch state now with
          error := some (Json.str "Unknown server error") }
  else if msg.type = "pong" then
    match msg.data with
    | some (Json.obj fields) =>
        match jsGet fields "timestamp" with
        | some ts =>
            if jsTruthy ts then
              .ok { touch state now with
                latency := jsSub (.val now)
                  (match ts with
                   | .str s => jsParseInt s
                   | j => jsToNumber j) }
            else .ok (touch state now)
        | none => .ok (touch state now)
    | _ => .ok (touch state now)
  else
    .ok (touch state now)

/-- The forEach accumulation of the BATCH_UPDATE case of the reducer
(part_004, lines 108-113): each buffered message is folded into the running
state; a thrown TypeError aborts the whole batch, as the forEach loop would. -/
def runBatch (state : WebSocketState) (now : ℚ) :
    List WSMessage → Except String WebSocketState
  | [] => .ok state
  | m :: rest =>
      match processMessage state m now with
      | .ok st => runBatch st now rest
      | .error e => .error e

/-- part_004, reducer. -/
def reducer (state : WebSocketState) (action : WSAction) (now : ℚ) :
    Except String WebSocketState :=
  match action with
  | .connected =>
      .ok { state with
        isConnected := true
        error := none
        connectionAttempts := 0
        lastMessageTime := some now }
  | .disconnected reason =>
      .ok { initialState with
        error := some (Json.str (strOrDefault reason "Connection lost."))
        subscribedChannels := state.subscribedChannels }
  | .reconnecting =>
      .ok { state with
        isConnected := false
        error := some (Json.str ("Reconnecting... Attempt " ++
          toString (state.connectionAttempts + 1) ++ "."))
        connectionAttempts := state.connectionAttempts + 1 }
  | .message payload => processMessage state payload now
  | .batchUpdate messages => runBatch state now messages
  | .subscribe channel =>
      .ok { state with subscribedChannels := setAdd state.subscribedChannels channel }
  | .unsubscribe channel =>
      .ok { state with
        subscribedChannels := state.subscribedChannels.filter (fun c => c ≠ channel) }
  | .updateLatency latency => .ok { state with latency := latency }

/-- The derived connection-quality classification. -/
inductive Quality where
  | excellent
  | good
  | poor
  | disconnected
deriving DecidableEq

/-- Strict equality of a JavaScript number with a literal; false for NaN. -/
def jsEq (a : JsNum) (b : ℚ) : Bool :=
  match a with
  | .val v => v == b
  | .nan => false

/-- Less-than on a JavaScript number and a literal; false for NaN. -/
def jsLt (a : JsNum) (b : ℚ) : Bool :=
  match a with
  | .val v => v < b
  | .nan => false

/-- part_004, lines 466-474: the connection quality derived from the
snapshot. -/
def connectionQuality (isConnected : Bool) (latency : JsNum) : Quality :=
  if isConnected then
    if jsEq latency 0 then .excellent
    else if jsLt latency 100 then .excellent
    else if jsLt latency 300 then .good
    else .poor
  else .disconnected

/-- part_004, ws.onclose (lines 392-402): the actions dispatched by the close
handler — the remaining buffer is flushed as one BATCH_UPDATE (only when
non-empty), then DISCONNECTED with the transport close reason defaulted to
"Connection lost". -/
def onCloseDispatches (buffer : List WSMessage) (reason : Option String) :
    List WSAction :=
  (if buffer.isEmpty then [] else [.batchUpdate buffer]) ++
    [.disconnected (some (strOrDefault reason "Connection lost"))]

/-- Sequential application of a list of dispatched actions through the
reducer (React applies queued dispatches in order). -/
def applyActions (state : WebSocketState) (now : ℚ) :
    List WSAction → Except String WebSocketState
  | [] => .ok state
  | a :: rest =>
      match reducer state a now with
      | .ok st => applyActions st now rest
      | .error e => .error e

/-! ### Reconnect backoff

The basic hook (frontend/hooks/useWebSocket.ts) carries its own literal
defaults (reconnectDelay 2000, cap 30000, factor 2 via Math.pow(2, n)).
The enhanced hook (part_004) reads the same numbers from CONFIG, whose file
(lib/config) is not part of the source tree; those constants are modelled
from the spec. -/

/-- Modelled from the spec: CONFIG.WEBSOCKET.RECONNECT.INITIAL_DELAY (the
file lib/config is missing from the source tree); the spec gives
"baseDelay 2000ms". -/
def RECONNECT_INITIAL_DELAY : ℕ := 2000

/-- Modelled from the spec: CONFIG.WEBSOCKET.RECONNECT.BACKOFF_FACTOR (the
file lib/config is missing from the source tree); the spec gives
"backoffFactor 2". -/
def RECONNECT_BACKOFF_FACTOR : ℕ := 2

/-- Modelled from the spec: CONFIG.WEBSOCKET.RECONNECT.MAX_DELAY (the file
lib/config is missing from the source tree); the spec gives
"maxDelay 30000ms". -/
def RECONNECT_MAX_DELAY : ℕ := 30000

/-- Modelled from the spec: CONFIG.WEBSOCKET.RECONNECT.MAX_ATTEMPTS (the
file lib/config is missing from the source tree); the spec gives
"maxAttempts 5". -/
def RECONNECT_MAX_ATTEMPTS : ℕ := 5

/-- frontend/hooks/useWebSocket.ts, line 202: the pre-jitter reconnect delay
of the basic hook, computed from the attempt counter before it is
incremented: min(reconnectDelay * 2^attempts, 30000). -/
def basicDelay (reconnectDelay attempts : ℕ) : ℕ :=
  min (reconnectDelay * 2 ^ attempts) 30000

/-- part_004, ws.onclose lines 408-413: the enhanced hook increments the
attempt counter first and then computes
min(INITIAL_DELAY * BACKOFF_FACTOR^attempts, MAX_DELAY) with the already
incremented counter.  Returns (new counter, pre-jitter delay). -/
def enhancedOnCloseBackoff (attempts : ℕ) : ℕ × ℕ :=
  let attempts' := attempts + 1
  (attempts',
    min (RECONNECT_INITIAL_DELAY * RECONNECT_BACKOFF_FACTOR ^ attempts')
      RECONNECT_MAX_DELAY)

/-- part_004, lines 416-418: when jitter is enabled the scheduled delay is
the pre-jitter delay plus Math.random() * 1000, with Math.random() drawing
from the half-open unit interval. -/
def jitteredDelay (delay : ℕ) (rand : ℚ) : ℚ :=
  (delay : ℚ) + rand * 1000

/-! ### Connection manager

A transition system over the mutable connection bookkeeping of the enhanced
hook (metaRef: the owned transport and the attempt counter), together with
the transports the manager has abandoned by overwriting or nulling the ref.
Timers are not part of the state; the callbacks they eventually run appear
as events of the trace. -/

/-- The readyState of a browser WebSocket transport. -/
inductive ReadyState where
  | connecting
  | opened
  | closing
  | closed
deriving DecidableEq

/-- A transport is live when it is CONNECTING or OPEN. -/
def isLive : ReadyState → Bool
  | .connecting => true
  | .opened => true
  | _ => false

/-- WebSocket.close() on a transport: a CONNECTING or OPEN socket moves to
CLOSING; a CLOSING or CLOSED socket is unaffected. -/
def closeTransport : ReadyState → ReadyState
  | .connecting => .closing
  | .opened => .closing
  | s => s

/-- The connection-manager bookkeeping of the enhanced hook: the readyState
of the currently owned transport (metaRef.current.ws, none when the ref is
null), the transports no longer owned, the attempt counter and the
manual-close flag. -/
structure MgrState where
  ws : Option ReadyState
  detached : List ReadyState
  connectionAttempts : ℕ
  isManualClose : Bool

/-- The manager before the first connect: no transport, zero attempts. -/
def initMgr : MgrState := ⟨none, [], 0, false⟩

/-- part_004, connect (lines 326-341): a no-op when the owned transport is
CONNECTING or OPEN or the attempt counter exceeds the maximum; otherwise a
new CONNECTING transport replaces the owned one (the replaced handle, if
any, is merely abandoned). -/
def connect (maxAttempts : ℕ) (s : MgrState) : MgrState :=
  if s.ws = some .connecting ∨ s.ws = some .opened ∨
      s.connectionAttempts > maxAttempts then s
  else
    { ws := some .connecting
      detached := (match s.ws with | some t => [t] | none => []) ++ s.detached
      connectionAttempts := s.connectionAttempts
      isManualClose := false }

/-- part_004, disconnect (lines 431-438): marks the close manual, resets the
attempt counter, closes the owned transport with code 1000 and nulls the
ref. -/
def disconnect (s : MgrState) : MgrState :=
  { ws := none
    detached := (match s.ws with | some t => [closeTransport t] | none => []) ++
      s.detached
    connectionAttempts := 0
    isManualClose := true }

/-- The externally triggerable events of the connection manager: the three
public calls plus the open/close callbacks of the transport (a close carries
whether it was a manual/clean closure, i.e. code 1000). -/
inductive MgrEv where
  | connect
  | disconnect
  | reconnect
  | transportOpen
  | transportClose (wasClean : Bool)

/-- One step of the connection manager.  reconnect composes disconnect with
a deferred connect (part_004, lines 440-443); ws.onopen resets the attempt
counter; ws.onclose settles the transport and, unless the closure was
manual or clean, increments the attempt counter (lines 404-409). -/
def mgrStep (maxAttempts : ℕ) (s : MgrState) : MgrEv → MgrState
  | .connect => connect maxAttempts s
  | .disconnect => disconnect s
  | .reconnect => connect maxAttempts (disconnect s)
  | .transportOpen =>
      match s.ws with
      | some .connecting => { s with ws := some .opened, connectionAttempts := 0 }
      | _ => s
  | .transportClose wasClean =>
      match s.ws with
      | some _ =>
          { s with
            ws := some .closed
            connectionAttempts :=
              if s.isManualClose || wasClean then s.connectionAttempts
              else s.connectionAttempts + 1 }
      | none => s

/-- Running the manager over a trace of events. -/
def mgrRun (maxAttempts : ℕ) (s : MgrState) (evs : List MgrEv) : MgrState :=
  evs.foldl (mgrStep maxAttempts) s

/-- How many of the transports ever created (owned or abandoned) are
currently CONNECTING or OPEN. -/
def liveTransports (s : MgrState) : ℕ :=
  ((match s.ws with | some t => [t] | none => []) ++ s.detached).countP isLive

/-! ### Subscription tracker

A trace model of the subscription-relevant behaviour of the enhanced hook:
the real reducer drives the snapshot, and the subscribe/unsubscribe wire
messages sent through sendMessage are logged.  sendMessage drops the
message when the transport is not OPEN (part_004, lines 260-266); the
isConnected of the snapshot tracks exactly that (CONNECTED on open, DISCONNECTED
on close).  The buffer flush a close also dispatches is modelled separately
by onCloseDispatches; it neither sends messages nor touches
subscribedChannels. -/

/-- Modelled from the spec: the fixed default channel set auto-subscribe
uses, CONFIG.WEBSOCKET.CHANNELS.ACCOUNT_UPDATES / POSITION_UPDATES /
ORDER_UPDATES / CONNECTION_STATUS (the file lib/config is missing from the
source tree; the spec calls this "a fixed default channel set").
Representative names are used: every property proved about it depends only
on the list being fixed, independent of subscribedChannels. -/
def essentialChannels : List String :=
  ["account_updates", "position_updates", "order_updates", "connection_status"]

/-- A protocol message sent on the wire by subscribe/unsubscribe (the
timestamp field it also carries is irrelevant to the claims). -/
structure SentMsg where
  type : String
  channel : String
deriving DecidableEq

/-- Applying one reducer action to the snapshot, for actions that cannot
throw (all actions other than MESSAGE and BATCH_UPDATE). -/
def applyPure (st : WebSocketState) (a : WSAction) (now : ℚ) : WebSocketState :=
  match reducer st a now with
  | .ok st' => st'
  | .error _ => st

/-- part_004, subscribe (lines 268-275): send a subscribe frame (dropped by
sendMessage when the transport is not open) and dispatch SUBSCRIBE. -/
def subscribeCall (p : WebSocketState × List SentMsg) (c : String) (now : ℚ) :
    WebSocketState × List SentMsg :=
  (applyPure p.1 (.subscribe c) now,
    if p.1.isConnected then p.2 ++ [⟨"subscribe", c⟩] else p.2)

/-- part_004, unsubscribe (lines 277-284). -/
def unsubscribeCall (p : WebSocketState × List SentMsg) (c : String) (now : ℚ) :
    WebSocketState × List SentMsg :=
  (applyPure p.1 (.unsubscribe c) now,
    if p.1.isConnected then p.2 ++ [⟨"unsubscribe", c⟩] else p.2)

/-- The subscription-relevant external events of the client: the two public
calls and the transport open/close callbacks. -/
inductive ClientEv where
  | callSubscribe (channel : String)
  | callUnsubscribe (channel : String)
  | wsOpen
  | wsClose (reason : Option String)

/-- One step of the subscription-tracker trace.  ws.onopen (lines 349-359)
dispatches CONNECTED and runs autoSubscribeToChannels (lines 310-324), which
— only when autoSubscribe is enabled — calls subscribe on each channel of
the fixed essentialChannels list, and on nothing else; ws.onclose dispatches
DISCONNECTED, which preserves subscribedChannels. -/
def clientStep (autoSubscribe : Bool) (now : ℚ)
    (p : WebSocketState × List SentMsg) : ClientEv → WebSocketState × List SentMsg
  | .callSubscribe c => subscribeCall p c now
  | .callUnsubscribe c => unsubscribeCall p c now
  | .wsOpen =>
      let p1 := (applyPure p.1 .connected now, p.2)
      if autoSubscribe then
        essentialChannels.foldl (fun acc c => subscribeCall acc c now) p1
      else p1
  | .wsClose reason =>
      (applyPure p.1
        (.disconnected (some (strOrDefault reason "Connection lost"))) now, p.2)

/-- Running the client over a trace of events. -/
def clientRun (autoSubscribe : Bool) (now : ℚ)
    (p : WebSocketState × List SentMsg) (evs : List ClientEv) :
    WebSocketState × List SentMsg :=
  evs.foldl (clientStep autoSubscribe now) p

/-! ## Lemmas about the object-spread merge -/

theorem jsGet_objSet_self (m : List (String × Json)) (k : String) (v : Json) :
    jsGet (objSet m k v) k = some v := by
  induction m with
  | nil => simp [objSet, jsGet]
  | cons p rest ih =>
      obtain ⟨k', v'⟩ := p
      by_cases h : k' = k
      · subst h
        simp [objSet, jsGet]
      · simpa [objSet, jsGet, h] using ih

theorem jsGet_objSet_ne (m : List (String × Json)) (k : String) (v : Json)
    (t : String) (h : t ≠ k) :
    jsGet (objSet m k v) t = jsGet m t := by
  induction m with
  | nil => simp [objSet, jsGet, Ne.symm h]
  | cons p rest ih =>
      obtain ⟨k', v'⟩ := p
      by_cases hk : k' = k
      · subst hk
        have hkt : ¬k' = t := fun hh => h hh.symm
        simp [objSet, jsGet, hkt]
      · by_cases ht : k' = t
        · subst ht
          simp [objSet, jsGet, hk]
        · simpa [objSet, jsGet, hk, ht] using ih

/-- C1 is settled against this evaluation: with the connection open, the
stale latency sentinel −1 falls into the "below 100" branch and the derived
quality is excellent, not poor; the remaining classification behaves as
described. -/
theorem connectionQuality_stale_sentinel_excellent :
    (∀ l, connectionQuality false l = Quality.disconnected) ∧
    connectionQuality true (.val 0) = Quality.excellent ∧
    connectionQuality true (.val 50) = Quality.excellent ∧
    connectionQuality true (.val 200) = Quality.good ∧
    connectionQuality true (.val 500) = Quality.poor ∧
    connectionQuality true .nan = Quality.poor ∧
    connectionQuality true (.val (-1)) = Quality.excellent :=
  ⟨fun _ => rfl, rfl, rfl, rfl, rfl, rfl, rfl⟩

/-- C3 counterexample: at the first unclean close (no reconnect has been
scheduled yet, so n = 0) the enhanced hook schedules 4000 ms before jitter,
not min(2000·2^0, 30000) = 2000 ms: the attempt counter is incremented
before the delay is computed. -/
theorem enhanced_first_close_delay_ne_claimed :
    (enhancedOnCloseBackoff 0).2 = 4000 ∧
    min (2000 * 2 ^ 0) 30000 = 2000 ∧
    (enhancedOnCloseBackoff 0).2 ≠ min (2000 * 2 ^ 0) 30000 := by
  refine ⟨by decide, by decide, by decide⟩

/-- C3 (amended): the basic hook computes the pre-jitter delay
min(2000·2^n, 30000) from the count n of reconnects scheduled so far; the
enhanced hook increments the counter first and computes
min(2000·2^(n+1), 30000); both delays are non-decreasing in n and capped at
30000 ms; jitter, when enabled, adds a uniform random term of less than
1000 ms. -/
theorem backoff_delay_formula_monotone_capped :
    (∀ n, basicDelay 2000 n = min (2000 * 2 ^ n) 30000) ∧
    (∀ n, basicDelay 2000 n ≤ basicDelay 2000 (n + 1)) ∧
    (∀ n, (enhancedOnCloseBackoff n).2 = min (2000 * 2 ^ (n + 1)) 30000) ∧
    (∀ n, (enhancedOnCloseBackoff n).2 ≤ (enhancedOnCloseBackoff (n + 1)).2) ∧
    (∀ n, basicDelay 2000 n ≤ 30000 ∧ (enhancedOnCloseBackoff n).2 ≤ 30000) ∧
    (∀ (d : ℕ) (r : ℚ), 0 ≤ r → r < 1 →
      (d : ℚ) ≤ jitteredDelay d r ∧ jitteredDelay d r < (d : ℚ) + 1000) := by
  have hmono : ∀ n, (2000 : ℕ) * 2 ^ n ≤ 2000 * 2 ^ (n + 1) := fun n =>
    Nat.mul_le_mul_left _ (Nat.pow_le_pow_right (by norm_num) (Nat.le_succ n))
  refine ⟨fun n => rfl, fun n => ?_, fun n => rfl, fun n => ?_, fun n => ?_,
    fun d r hr0 hr1 => ⟨?_, ?_⟩⟩
  · exact min_le_min (hmono n) le_rfl
  · exact min_le_min (hmono (n + 1)) le_rfl
  · exact ⟨min_le_right _ _, min_le_right _ _⟩
  · exact le_add_of_nonneg_right (mul_nonneg hr0 (by norm_num))
  · have h : r * 1000 < 1 * 1000 :=
      mul_lt_mul_of_pos_right hr1 (by norm_num)
    rw [one_mul] at h
    unfold jitteredDelay
    linarith

/-- C3 witness: the jitter bound instantiated at a concrete delay and a
concrete random draw. -/
theorem backoff_jitter_witness :
    ((4000 : ℕ) : ℚ) ≤ jitteredDelay 4000 (1 / 2) ∧
      jitteredDelay 4000 (1 / 2) < ((4000 : ℕ) : ℚ) + 1000 :=
  backoff_delay_formula_monotone_capped.2.2.2.2.2 4000 (1 / 2)
    (by norm_num) (by norm_num)

/-- C4: the DISCONNECTED transition resets accountData, marketData,
positions and orders to absent while preserving subscribedChannels
unchanged. -/
theorem disconnect_resets_data_preserves_subscriptions
    (s : WebSocketState) (reason : Option String) (now : ℚ) :
    ∃ s', reducer s (.disconnected reason) now = .ok s' ∧
      s'.accountData = none ∧ s'.marketData = none ∧
      s'.positions = none ∧ s'.orders = none ∧
      s'.subscribedChannels = s.subscribedChannels :=
  ⟨_, rfl, rfl, rfl, rfl, rfl, rfl⟩

/-- The forEach accumulation of a batch equals the monadic left fold of the
per-message reducer over the buffered list. -/
theorem runBatch_eq_foldlM (msgs : List WSMessage) (s : WebSocketState) (now : ℚ) :
    runBatch s now msgs = msgs.foldlM (fun st m => processMessage st m now) s := by
  induction msgs generalizing s with
  | nil => rfl
  | cons m rest ih =>
      simp only [runBatch, List.foldlM_cons]
      cases processMessage s m now with
      | ok st => simpa [Except.bind] using ih st
      | error e => rfl

/-- C5: flushing the buffer applies the buffered messages in arrival order —
the BATCH_UPDATE transition is the left-to-right fold of processMessage over
the buffer; two buffered account updates end with the later balance; and the
dispatches of the close handler first flush the remaining buffer and then clear
the snapshot. -/
theorem batch_flush_fifo_then_clear :
    (∀ s now msgs, reducer s (.batchUpdate msgs) now =
        msgs.foldlM (fun st m => processMessage st m now) s) ∧
    (∃ s', runBatch initialState 0
        [⟨"account_update", some (.obj [("balance", .num 100)])⟩,
         ⟨"account_update", some (.obj [("balance", .num 200)])⟩] = .ok s' ∧
        s'.accountData = some (.obj [("balance", .num 200)])) ∧
    (∀ s now buffer reason,
        applyActions s now (onCloseDispatches buffer reason) =
          (runBatch s now buffer).bind (fun s1 =>
            reducer s1
              (.disconnected (some (strOrDefault reason "Connection lost"))) now)) := by
  refine ⟨fun s now msgs => runBatch_eq_foldlM msgs s now, ⟨_, rfl, rfl⟩,
    fun s now buffer reason => ?_⟩
  cases buffer with
  | nil =>
      simp only [onCloseDispatches, List.isEmpty_nil, if_true, List.nil_append,
        runBatch, Except.bind]
      simp [applyActions, reducer]
  | cons b bs =>
      simp only [onCloseDispatches, List.isEmpty_cons, if_false, List.cons_append,
        List.nil_append, applyActions, reducer]
      cases h : runBatch s now (b :: bs) with
      | ok s1 => simp [applyActions, Except.bind, reducer]
      | error e => simp [Except.bind]

/-- All abandoned transports of the connection manager are CLOSING or
CLOSED: connect only abandons a transport it refused to reuse (not
CONNECTING/OPEN) and disconnect closes the transport it abandons. -/
theorem mgrStep_detached_dead (maxAttempts : ℕ) (s : MgrState) (e : MgrEv)
    (hs : ∀ t ∈ s.detached, isLive t = false) :
    ∀ t ∈ (mgrStep maxAttempts s e).detached, isLive t = false := by
  have hconn : ∀ s' : MgrState, (∀ t ∈ s'.detached, isLive t = false) →
      ∀ t ∈ (connect maxAttempts s').detached, isLive t = false := by
    intro s' hs' t ht
    unfold connect at ht
    by_cases hg : s'.ws = some .connecting ∨ s'.ws = some .opened ∨
        s'.connectionAttempts > maxAttempts
    · rw [if_pos hg] at ht
      exact hs' t ht
    · rw [if_neg hg] at ht
      push_neg at hg
      cases hw : s'.ws with
      | none =>
          simp [hw] at ht
          exact hs' t ht
      | some w =>
          simp [hw] at ht
          rcases ht with ht | ht
          · rw [ht]
            cases w with
            | connecting => exact absurd hw hg.1
            | opened => exact absurd hw hg.2.1
            | closing => rfl
            | closed => rfl
          · exact hs' t ht
  have hdisc : ∀ s' : MgrState, (∀ t ∈ s'.detached, isLive t = false) →
      ∀ t ∈ (disconnect s').detached, isLive t = false := by
    intro s' hs' t ht
    unfold disconnect at ht
    cases hw : s'.ws with
    | none =>
        simp [hw] at ht
        exact hs' t ht
    | some w =>
        simp [hw] at ht
        rcases ht with ht | ht
        · rw [ht]
          cases w <;> rfl
        · exact hs' t ht
  cases e with
  | connect => exact hconn s hs
  | disconnect => exact hdisc s hs
  | reconnect => exact hconn (disconnect s) (hdisc s hs)
  | transportOpen =>
      intro t ht
      apply hs
      unfold mgrStep at ht
      cases hw : s.ws with
      | none => simpa [hw] using ht
      | some w => cases w <;> simpa [hw] using ht
  | transportClose wasClean =>
      intro t ht
      apply hs
      unfold mgrStep at ht
      cases hw : s.ws with
      | none => simpa [hw] using ht
      | some w => simpa [hw] using ht

/-- The abandoned-transports invariant holds along every trace from the
initial manager state. -/
theorem mgrRun_detached_dead (maxAttempts : ℕ) (evs : List MgrEv) (s : MgrState)
    (hs : ∀ t ∈ s.detached, isLive t = false) :
    ∀ t ∈ (mgrRun maxAttempts s evs).detached, isLive t = false := by
  induction evs generalizing s with
  | nil => exact hs
  | cons e rest ih =>
      exact ih (mgrStep maxAttempts s e) (mgrStep_detached_dead maxAttempts s e hs)

/-- A manager state whose abandoned transports are all dead has at most one
live transport. -/
theorem liveTransports_le_one (s : MgrState)
    (hs : ∀ t ∈ s.detached, isLive t = false) :
    liveTransports s ≤ 1 := by
  have hz : s.detached.countP isLive = 0 := by
    rw [List.countP_eq_zero]
    intro t ht
    simp [hs t ht]
  unfold liveTransports
  rcases s.ws with - | w
  · simp [hz]
  · rw [List.countP_append, hz]
    cases w <;> simp [List.countP_cons, isLive]

/-- C6: connect is a no-op when a transport is already CONNECTING/OPEN or
the attempt counter exceeds the configured maximum; consequently along any
event trace — public calls and transport callbacks — at most one transport
is ever CONNECTING/OPEN at a time. -/
theorem connect_noop_and_single_live_transport :
    (∀ (maxAttempts : ℕ) (s : MgrState),
        (s.ws = some .connecting ∨ s.ws = some .opened ∨
          s.connectionAttempts > maxAttempts) →
        connect maxAttempts s = s) ∧
    (∀ (maxAttempts : ℕ) (evs : List MgrEv),
        liveTransports (mgrRun maxAttempts initMgr evs) ≤ 1) := by
  constructor
  · intro maxAttempts s h
    unfold connect
    rw [if_pos h]
  · intro maxAttempts evs
    apply liveTransports_le_one
    apply mgrRun_detached_dead
    intro t ht
    simp [initMgr] at ht

/-- C6 witness: connect refuses to replace an OPEN transport, and an
exhausted attempt counter, at concrete states. -/
theorem connect_noop_witness :
    (some ReadyState.opened = some ReadyState.connecting ∨
      some ReadyState.opened = some ReadyState.opened ∨ (0 : ℕ) > 5) ∧
    connect 5 ⟨some .opened, [], 0, false⟩ = ⟨some .opened, [], 0, false⟩ ∧
    liveTransports (mgrRun 5 initMgr [.connect, .transportOpen, .disconnect,
      .reconnect, .transportClose false, .connect]) ≤ 1 :=
  ⟨Or.inr (Or.inl rfl),
    connect_noop_and_single_live_transport.1 5 ⟨some .opened, [], 0, false⟩
      (Or.inr (Or.inl rfl)),
    connect_noop_and_single_live_transport.2 5 _⟩

/-- C7: a market_data message carrying symbol S merges only into the entry of S:
the processed state stores the payload under key S in the market map, and
every other symbol's entry is unchanged. -/
theorem market_data_merge_per_symbol
    (s : WebSocketState) (now : ℚ) (fields : List (String × Json))
    (S T : String)
    (hsym : jsGet fields "symbol" = some (Json.str S)) (hne : T ≠ S) :
    ∃ s', processMessage s ⟨"market_data", some (.obj fields)⟩ now = .ok s' ∧
      s'.marketData = some (objSet (s.marketData.getD []) S
        (jsOrOpt (jsGet fields "data") (Json.obj fields))) ∧
      jsGet (s'.marketData.getD []) S =
        some (jsOrOpt (jsGet fields "data") (Json.obj fields)) ∧
      jsGet (s'.marketData.getD []) T = jsGet (s.marketData.getD []) T := by
  have h : processMessage s ⟨"market_data", some (.obj fields)⟩ now =
      .ok { touch s now with
        marketData := some (objSet (s.marketData.getD []) S
          (jsOrOpt (jsGet fields "data") (Json.obj fields))) } := by
    simp [processMessage, touch, hsym, jsKey]
  exact ⟨_, h, rfl, by simp [jsGet_objSet_self],
    by simp [jsGet_objSet_ne _ _ _ _ hne]⟩

/-- C7 witness: the merge instantiated at the P6 example of the spec — a quote
for GBPUSD arrives while EURUSD is present; the EURUSD entry is untouched and
the GBPUSD entry is the new payload. -/
theorem market_data_merge_witness :
    ∃ s', processMessage
        { initialState with
          marketData := some [("EURUSD", Json.obj [("bid", Json.num 110)])] }
        ⟨"market_data",
          some (.obj [("symbol", Json.str "GBPUSD"), ("bid", Json.num 125)])⟩
        0 = .ok s' ∧
      s'.marketData = some (objSet
        (({ initialState with
            marketData := some [("EURUSD", Json.obj [("bid", Json.num 110)])]
          } : WebSocketState).marketData.getD []) "GBPUSD"
        (jsOrOpt (jsGet [("symbol", Json.str "GBPUSD"), ("bid", Json.num 125)]
          "data")
          (Json.obj [("symbol", Json.str "GBPUSD"), ("bid", Json.num 125)]))) ∧
      jsGet (s'.marketData.getD []) "GBPUSD" =
        some (jsOrOpt
          (jsGet [("symbol", Json.str "GBPUSD"), ("bid", Json.num 125)] "data")
          (Json.obj [("symbol", Json.str "GBPUSD"), ("bid", Json.num 125)])) ∧
      jsGet (s'.marketData.getD []) "EURUSD" =
        jsGet (({ initialState with
          marketData := some [("EURUSD", Json.obj [("bid", Json.num 110)])]
        } : WebSocketState).marketData.getD []) "EURUSD" :=
  market_data_merge_per_symbol
    { initialState with
      marketData := some [("EURUSD", Json.obj [("bid", Json.num 110)])] }
    0 [("symbol", Json.str "GBPUSD"), ("bid", Json.num 125)]
    "GBPUSD" "EURUSD" rfl (by decide)

/-- C8: a message whose type matches none of the switch cases leaves every
field of the snapshot unchanged except lastMessageTime, which is set to the
current time; and every message the reducer accepts (returns without
throwing) has its lastMessageTime set to the current time, whatever its
kind. -/
theorem unknown_kind_updates_only_lastMessageTime :
    (∀ (s : WebSocketState) (m : WSMessage) (now : ℚ),
        m.type ∉ (["account_update", "market_data", "position_update",
          "order_update", "connection_status", "connection_connected",
          "connection_disconnected", "error", "pong"] : List String) →
        processMessage s m now = .ok { s with lastMessageTime := some now }) ∧
    (∀ (s : WebSocketState) (m : WSMessage) (now : ℚ) (s' : WebSocketState),
        processMessage s m now = .ok s' → s'.lastMessageTime = some now) := by
  constructor
  · intro s m now h
    simp only [List.mem_cons, List.mem_singleton, not_or] at h
    obtain ⟨h1, h2, h3, h4, h5, h6, h7, h8, h9, -⟩ := h
    simp [processMessage, touch, h1, h2, h3, h4, h5, h6, h7, h8, h9]
  · intro s m now s' h
    unfold processMessage at h
    repeat' split at h
    all_goals first
      | exact Except.noConfusion h
      | (injection h with h; subst h; rfl)

/-- C8 witness: an unrecognized kind at a concrete snapshot, and the
lastMessageTime update observed on an accepted concrete message. -/
theorem unknown_kind_witness :
    processMessage initialState ⟨"nonsense", none⟩ 7 =
      .ok { initialState with lastMessageTime := some 7 } ∧
    ({ initialState with
        lastMessageTime := some 7 } : WebSocketState).lastMessageTime = some 7 :=
  ⟨unknown_kind_updates_only_lastMessageTime.1 initialState ⟨"nonsense", none⟩ 7
      (by decide),
    unknown_kind_updates_only_lastMessageTime.2 initialState ⟨"nonsense", none⟩ 7
      { initialState with lastMessageTime := some 7 }
      (unknown_kind_updates_only_lastMessageTime.1 initialState
        ⟨"nonsense", none⟩ 7 (by decide))⟩

/-- C9 counterexample: the payload is an object that does carry a message
field, namely the empty string, yet the reducer stores the generic default
instead of that message field (the code applies truthiness, not shape, to
choose the default). -/
theorem error_empty_message_gets_default :
    jsGet [("message", Json.str "")] "message" = some (Json.str "") ∧
    processMessage initialState
        ⟨"error", some (.obj [("message", Json.str "")])⟩ 0 =
      .ok { initialState with
        lastMessageTime := some 0
        error := some (Json.str "Unknown server error") } ∧
    Json.str "Unknown server error" ≠ Json.str "" := by
  refine ⟨rfl, rfl, fun h => ?_⟩
  injection h with h'
  exact absurd h' (by decide)

/-- C9 (amended): an error message sets the error field from the payload —
to the payload itself when it is a bare string, to its message field when
it is an object whose message field is truthy, and to the generic default
"Unknown server error" when the message field is absent or falsy or the
payload is neither a string nor an object — and no error message changes
isConnected or connectionAttempts. -/
theorem error_payload_sets_error_field :
    (∀ (s : WebSocketState) (now : ℚ) (e : String),
        ∃ s', processMessage s ⟨"error", some (.str e)⟩ now = .ok s' ∧
          s'.error = some (.str e)) ∧
    (∀ (s : WebSocketState) (now : ℚ) (fields : List (String × Json)) (v : Json),
        jsGet fields "message" = some v → jsTruthy v = true →
        ∃ s', processMessage s ⟨"error", some (.obj fields)⟩ now = .ok s' ∧
          s'.error = some v) ∧
    (∀ (s : WebSocketState) (now : ℚ) (fields : List (String × Json)),
        (∀ v, jsGet fields "message" = some v → jsTruthy v = false) →
        ∃ s', processMessage s ⟨"error", some (.obj fields)⟩ now = .ok s' ∧
          s'.error = some (.str "Unknown server error")) ∧
    (∀ (s : WebSocketState) (now : ℚ) (d : Option Json),
        (∀ e, d ≠ some (.str e)) → (∀ fs, d ≠ some (.obj fs)) →
        ∃ s', processMessage s ⟨"error", d⟩ now = .ok s' ∧
          s'.error = some (.str "Unknown server error")) ∧
    (∀ (s : WebSocketState) (now : ℚ) (d : Option Json) (s' : WebSocketState),
        processMessage s ⟨"error", d⟩ now = .ok s' →
        s'.isConnected = s.isConnected ∧
        s'.connectionAttempts = s.connectionAttempts) := by
  refine ⟨fun s now e =>
      ⟨{ touch s now with error := some (.str e) }, rfl, rfl⟩,
    fun s now fields v hv htr => ?_,
    fun s now fields hfalsy => ?_, fun s now d hstr hobj => ?_,
    fun s now d s' h => ?_⟩
  · refine ⟨{ touch s now with error := some v }, ?_, rfl⟩
    simp [processMessage, hv, htr]
  · refine ⟨{ touch s now with error := some (.str "Unknown server error") },
      ?_, rfl⟩
    cases hm : jsGet fields "message" with
    | none => simp [processMessage, hm]
    | some v => simp [processMessage, hm, hfalsy v hm]
  · refine ⟨{ touch s now with error := some (.str "Unknown server error") },
      ?_, rfl⟩
    cases d with
    | none => rfl
    | some j =>
        cases j with
        | str e => exact absurd rfl (hstr e)
        | obj fs => exact absurd rfl (hobj fs)
        | null => rfl
        | bool b => rfl
        | num v => rfl
        | arr xs => rfl
  · unfold processMessage at h
    repeat' split at h
    all_goals first
      | exact Except.noConfusion h
      | (injection h with h; subst h; exact ⟨rfl, rfl⟩)

/-- C9 witness: the amended behaviour at concrete inputs — a truthy message
field is surfaced verbatim. -/
theorem error_payload_witness :
    ∃ s', processMessage initialState
        ⟨"error", some (.obj [("message", Json.str "boom")])⟩ 0 = .ok s' ∧
      s'.error = some (Json.str "boom") :=
  error_payload_sets_error_field.2.1 initialState 0
    [("message", Json.str "boom")] (Json.str "boom") rfl rfl

/-- Wire messages are only ever appended by a subscribe call. -/
theorem subscribeCall_sent_mono (q : WebSocketState × List SentMsg)
    (c : String) (now : ℚ) (m : SentMsg) (hm : m ∈ q.2) :
    m ∈ (subscribeCall q c now).2 := by
  unfold subscribeCall
  by_cases h : q.1.isConnected
  · simp [h, hm]
  · simp [h, hm]

/-- A subscribe call leaves the connected flag unchanged. -/
theorem subscribeCall_isConnected (q : WebSocketState × List SentMsg)
    (c : String) (now : ℚ) :
    (subscribeCall q c now).1.isConnected = q.1.isConnected := rfl

/-- Folding subscribe calls over a channel list on a connected client sends
a subscribe frame for every channel of the list. -/
theorem foldl_subscribeCall_mem (now : ℚ) (l : List String)
    (q : WebSocketState × List SentMsg) (c : String)
    (hq : q.1.isConnected = true) (hc : c ∈ l) :
    (⟨"subscribe", c⟩ : SentMsg) ∈
      (l.foldl (fun acc ch => subscribeCall acc ch now) q).2 := by
  induction l generalizing q with
  | nil => cases hc
  | cons a rest ih =>
      rcases List.mem_cons.mp hc with h | h
      · subst h
        have hmem : (⟨"subscribe", c⟩ : SentMsg) ∈ (subscribeCall q c now).2 := by
          unfold subscribeCall
          simp [hq]
        have : ∀ (l' : List String) (q' : WebSocketState × List SentMsg)
            (m : SentMsg), m ∈ q'.2 →
            m ∈ (l'.foldl (fun acc ch => subscribeCall acc ch now) q').2 := by
          intro l'
          induction l' with
          | nil => intro q' m hm; exact hm
          | cons b rest' ih' =>
              intro q' m hm
              exact ih' _ _ (subscribeCall_sent_mono q' b now m hm)
        exact this rest _ _ hmem
      · exact ih (subscribeCall q a now)
          (by rw [subscribeCall_isConnected]; exact hq) h

/-- C2 counterexample: the caller subscribes to channel "custom-feed", the
transport closes uncleanly and a new one opens (auto-subscribe enabled);
afterwards the channel is still in subscribedChannels, yet the only
subscribe frame ever sent for it is the original one from the caller — the open
handler replayed nothing from the subscription set. -/
theorem custom_channel_not_replayed_on_reconnect :
    ("custom-feed" ∈ (clientRun true 0 (initialState, [])
        [.wsOpen, .callSubscribe "custom-feed", .wsClose none,
         .wsOpen]).1.subscribedChannels) ∧
    ((clientRun true 0 (initialState, [])
        [.wsOpen, .callSubscribe "custom-feed", .wsClose none,
         .wsOpen]).2.count ⟨"subscribe", "custom-feed"⟩ = 1) := by
  constructor
  · decide
  · decide

/-- C2 (amended): on every (re)connect with auto-subscribe enabled, the open
handler re-sends a subscribe request for each channel of the fixed
essentialChannels list — and only consults that list — while a disconnect
preserves subscribedChannels unchanged in the snapshot; a subscribed channel
outside the essential list is not replayed. -/
theorem open_replays_essential_channels :
    (∀ (p : WebSocketState × List SentMsg) (now : ℚ) (c : String),
        c ∈ essentialChannels →
        (⟨"subscribe", c⟩ : SentMsg) ∈ (clientStep true now p .wsOpen).2) ∧
    (∀ (autoSubscribe : Bool) (p : WebSocketState × List SentMsg) (now : ℚ)
        (reason : Option String),
        (clientStep autoSubscribe now p (.wsClose reason)).1.subscribedChannels =
          p.1.subscribedChannels) := by
  constructor
  · intro p now c hc
    show (⟨"subscribe", c⟩ : SentMsg) ∈
      (essentialChannels.foldl (fun acc ch => subscribeCall acc ch now)
        (applyPure p.1 .connected now, p.2)).2
    exact foldl_subscribeCall_mem now essentialChannels
      (applyPure p.1 .connected now, p.2) c rfl hc
  · intro autoSubscribe p now reason
    rfl

/-- C2 witness: an essential channel is re-sent by the open handler at a
concrete client state, and a concrete close preserves the subscription
set. -/
theorem open_replay_witness :
    (⟨"subscribe", "account_updates"⟩ : SentMsg) ∈
      (clientStep true 0 (initialState, []) .wsOpen).2 ∧
    (clientStep true 0
        ({ initialState with subscribedChannels := ["custom-feed"] }, [])
        (.wsClose none)).1.subscribedChannels =
      (({ initialState with subscribedChannels := ["custom-feed"] }
        : WebSocketState), ([] : List SentMsg)).1.subscribedChannels :=
  ⟨open_replays_essential_channels.1 (initialState, []) 0 "account_updates"
      (by decide),
    open_replays_essential_channels.2 true
      ({ initialState with subscribedChannels := ["custom-feed"] }, []) 0 none⟩

/-- C10 is settled against this evaluation: a position_update (resp.
order_update) whose payload is a truthy primitive reaches the JavaScript
`in` operator unguarded and the reducer throws a TypeError instead of
leaving the snapshot unchanged. -/
theorem primitive_payload_in_operator_throws :
    processMessage initialState ⟨"position_update", some (.str "oops")⟩ 0 =
      .error "TypeError: Cannot use in operator to search for positions" ∧
    processMessage initialState ⟨"order_update", some (.num 5)⟩ 0 =
      .error "TypeError: Cannot use in operator to search for orders" :=
  ⟨rfl, rfl⟩
